import Mathlib

/-!
Verification of `gps_metadata.py`: a batch script that extracts GPS EXIF
metadata from the `.jpg` files of a directory and writes one CSV summary.

Shallow embedding conventions:
* Python runtime values flowing through the GPS pipeline are modelled by
  `Value`: `Value.num` is a Python number (EXIF rationals, ints, floats are
  all exact here, so numbers are modelled as rationals), `Value.str` is a
  Python `str`, and `Value.seq` is a Python `list` or `tuple` (the two are
  indistinguishable to this program).
* A Python dict is an association list; `dictGet` is `d.get(k)` and
  `dictGetD` is `d.get(k, default)`.
* File-system reads are modelled by explicit inputs: `write_gps_to_csv`
  takes the directory listing (`os.listdir` result) and a function giving
  each file's extracted GPS tag map; `get_gps_info` takes the outcome of
  opening/decoding the image (`Except` models a raised exception).
* `print` diagnostics are modelled as explicit log components where a claim
  is about them.
-/

namespace GpsMetadata

/-- A Python runtime value as used by the GPS pipeline: a number (modelled
exactly as a rational), a string, or a list/tuple. -/
inductive Value where
  | num (q : ℚ)
  | str (s : String)
  | seq (l : List Value)

/-- A GPS tag map with string keys (`{tag name: raw value}`), as consumed by
`write_gps_to_csv`. -/
abbrev TagMap := List (String × Value)

/-- Python `d.get(k)`: the value under `k`, or `None` (here `none`). -/
def dictGet (d : TagMap) (k : String) : Option Value :=
  (d.find? (fun p => p.1 == k)).map Prod.snd

/-- Python `d.get(k, dflt)`. -/
def dictGetD (d : TagMap) (k : String) (dflt : Value) : Value :=
  (dictGet d k).getD dflt

/-- The key list of a tag map. -/
def keysOf (d : TagMap) : List String := d.map Prod.fst

/-- Source function `parse_gps_coordinate(coordinate)` (lines 27-37): if the
argument is truthy, is a `list` or `tuple`, and has length exactly 3, return
its three elements positionally; in every other case (absent value, wrong
length, not a list/tuple — including strings, which fail the `isinstance`
check) return `('', '', '')`.  A 3-element list/tuple is always truthy and
its indexing cannot raise, so the match below covers the source exactly. -/
def parse_gps_coordinate : Option Value → Value × Value × Value
  | some (Value.seq [a, b, c]) => (a, b, c)
  | _ => (Value.str "", Value.str "", Value.str "")

/-- The numeric value of a list of decimal digit characters. -/
def natFromDigits (cs : List Char) : Nat :=
  cs.foldl (fun a c => 10 * a + (c.toNat - 48)) 0

/-- Model of Python `float(s)` on a string: parses an optional sign, digits,
and an optional fractional part; every other string (in particular `''`)
raises, modelled as `none`. -/
def parseDecimal (s : String) : Option ℚ :=
  let cs := s.toList
  let signed : Bool × List Char :=
    match cs with
    | '-' :: rest => (true, rest)
    | '+' :: rest => (false, rest)
    | _ => (false, cs)
  let mag : Option ℚ :=
    match signed.2.splitOn '.' with
    | [intPart] =>
      if intPart.isEmpty ∨ ¬ intPart.all Char.isDigit then none
      else some ((natFromDigits intPart : ℚ))
    | [intPart, fracPart] =>
      if (intPart.isEmpty ∧ fracPart.isEmpty)
          ∨ ¬ intPart.all Char.isDigit ∨ ¬ fracPart.all Char.isDigit then none
      else some ((natFromDigits intPart : ℚ)
        + (natFromDigits fracPart : ℚ) / (10 : ℚ) ^ fracPart.length)
    | _ => none
  mag.map (fun q => if signed.1 then -q else q)

/-- Model of Python `float(v)`: numbers coerce to themselves, strings go
through `parseDecimal`, lists/tuples raise (`none`). -/
def pyFloat : Value → Option ℚ
  | Value.num q => some q
  | Value.str s => parseDecimal s
  | Value.seq _ => none

/-- Source function `calculate_decimal(degree, minutes, seconds)` (lines 39-45):
`float(degree) + float(minutes)/60 + float(seconds)/3600`; any coercion
failure is caught and `''` is returned. -/
def calculate_decimal (degree minutes seconds : Value) : Value :=
  match pyFloat degree, pyFloat minutes, pyFloat seconds with
  | some d, some m, some s => Value.num (d + m / 60 + s / 3600)
  | _, _, _ => Value.str ""

/-- The `print` diagnostic of `calculate_decimal`: one line in the failure
branch, nothing on success. -/
def calculate_decimal_log (degree minutes seconds : Value) : List String :=
  match pyFloat degree, pyFloat minutes, pyFloat seconds with
  | some _, some _, some _ => []
  | _, _, _ => ["Error calculating decimal value"]

/-- A key of the tag map built by `get_gps_info`: `GPSTAGS.get(id, id)` is
the human-readable name when the id is known, else the raw numeric id. -/
inductive Key where
  | str (s : String)
  | id (n : Nat)
deriving DecidableEq

/-- A GPS tag map as actually produced by `get_gps_info`: keys may be tag
names or raw numeric ids. -/
abbrev TagMapK := List (Key × Value)

/-- The value of one top-level EXIF tag: either a scalar value or a nested
dict (the shape of the `GPSInfo` tag). -/
inductive ExifVal where
  | val (v : Value)
  | dict (d : List (Nat × Value))

/-- The raw top-level EXIF dict returned by `image._getexif()`, tag id to
value.  `_getexif()` returning `None` and returning an empty dict are both
falsy in the source's `if not exif_data` test and are both modelled by `[]`. -/
abbrev ExifData := List (Nat × ExifVal)

/-- Lookup `TAGS.get(tag_id, tag_id)` / `GPSTAGS.get(id, id)` over an external
lookup table. -/
def tagName (table : Nat → Option String) (n : Nat) : Key :=
  match table n with
  | some s => Key.str s
  | none => Key.id n

/-- The source's scan loop: the value of the first top-level tag whose
translated name equals the string `'GPSInfo'` (a raw-id key, being an int,
never equals the string), stopping there (`break`). -/
def findGpsInfo (tags : Nat → Option String) : ExifData → Option ExifVal
  | [] => none
  | (tid, v) :: rest =>
    if tagName tags tid = Key.str "GPSInfo" then some v else findGpsInfo tags rest

/-- Source function `get_gps_info(image_path)` (lines 6-25), with the image-decoding outcome
passed explicitly: `Except.error e` models `Image.open`/`_getexif` raising
with message `e`.  Returns the tag map together with the `print` log.  If
the `GPSInfo` value is not a dict, the nested `.items()` call raises inside
the `try`, which the handler converts to an empty map plus a log line. -/
def get_gps_info (tags gpstags : Nat → Option String) (image_path : String)
    (decoded : Except String ExifData) : TagMapK × List String :=
  match decoded with
  | Except.error e =>
    ([], ["Error reading GPSInfo data from " ++ image_path ++ ": " ++ e])
  | Except.ok exif_data =>
    if exif_data.isEmpty then ([], [])
    else
      match findGpsInfo tags exif_data with
      | none => ([], [])
      | some (ExifVal.dict d) =>
        (d.map (fun p => (tagName gpstags p.1, p.2)), [])
      | some (ExifVal.val _) =>
        ([], ["Error reading GPSInfo data from " ++ image_path
          ++ ": object has no attribute items"])

/-- The observed-key accumulation of lines 55-61 at the `Key` level: the
union (`set.update`) of the key sets of the non-empty tag maps, one entry
per distinct key. -/
def observedKeysK (files : List (String × TagMapK)) : List Key :=
  ((files.map (fun p => p.2.map Prod.fst)).flatten).dedup

/-- Python `str.lower()`: each character mapped to its lowercase form. -/
def pyLower (s : String) : String :=
  String.mk (s.toList.map Char.toLower)

/-- The test `filename.lower().endswith('.jpg')` (line 56), stated on the character
sequence: the lowercased name ends with the four characters `.jpg`. -/
def isJpg (filename : String) : Bool :=
  List.isSuffixOf ".jpg".toList (pyLower filename).toList

/-- The discovery pass of lines 55-61: keep, in listing order, each `.jpg`
file whose extracted tag map is truthy (non-empty), paired with that map. -/
def gpsDataList (listing : List String) (exif : String → TagMap) :
    List (String × TagMap) :=
  (listing.filter isJpg).filterMap (fun f =>
    let m := exif f
    if m.isEmpty then none else some (f, m))

/-- The distinct observed keys (the content of the Python set
`all_gps_keys`), in first-arrival order. -/
def observedKeys (files : List (String × TagMap)) : List String :=
  ((files.map (fun p => keysOf p.2)).flatten).dedup

/-- The exclusion set `excluded_keys` of line 50: GPSAltitudeRef and GPSVersionID. -/
def excludedKeys : List String := ["GPSAltitudeRef", "GPSVersionID"]

/-- The four latitude-derived column names appended at line 66. -/
def latCols : List String :=
  ["GPSLatitudeDegree", "GPSLatitudeMinutes", "GPSLatitudeSeconds",
   "GPSLatitudeDecimal"]

/-- The four longitude-derived column names appended at line 69. -/
def longCols : List String :=
  ["GPSLongDegree", "GPSLongMinutes", "GPSLongSeconds", "GPSLongitudeDecimal"]

/-- Python `sorted` on strings: lexicographic (codepoint) order. -/
def pySorted (l : List String) : List String :=
  l.insertionSort (· ≤ ·)

/-- Lines 63-69 applied to an arbitrary enumeration `enum` of the observed
key set: `sorted(set - excluded)`, then each coordinate key, when present,
is removed and its four derived columns are appended at the end. -/
def allGpsKeysOf (enum : List String) : List String :=
  let base := pySorted (enum.filter (fun k => !(excludedKeys.contains k)))
  let base :=
    if base.contains "GPSLatitude" then base.erase "GPSLatitude" ++ latCols
    else base
  if base.contains "GPSLongitude" then base.erase "GPSLongitude" ++ longCols
  else base

/-- The header columns of a run (line 63-69 on the actually observed keys). -/
def allGpsKeys (files : List (String × TagMap)) : List String :=
  allGpsKeysOf (observedKeys files)

/-- The six local accumulator variables of the row loop (lines 81-82),
initialised to `''`. -/
structure RowState where
  latD : Value
  latM : Value
  latS : Value
  lonD : Value
  lonM : Value
  lonS : Value

/-- Initial row state: all six accumulators are `''`. -/
def initRowState : RowState :=
  ⟨Value.str "", Value.str "", Value.str "", Value.str "", Value.str "",
   Value.str ""⟩

/-- One iteration of the per-key loop of lines 83-113, threading the
accumulator state and the row built so far. -/
def rowStep (gps_info : TagMap) (acc : RowState × List Value) (key : String) :
    RowState × List Value :=
  let st := acc.1
  let row := acc.2
  if key = "GPSLatitudeDegree" ∨ key = "GPSLatitudeMinutes"
      ∨ key = "GPSLatitudeSeconds" then
    let p := parse_gps_coordinate (dictGet gps_info "GPSLatitude")
    if key = "GPSLatitudeDegree" then
      ({st with latD := p.1}, row ++ [p.1])
    else if key = "GPSLatitudeMinutes" then
      ({st with latM := p.2.1}, row ++ [p.2.1])
    else if key = "GPSLatitudeSeconds" then
      ({st with latS := p.2.2}, row ++ [p.2.2])
    else (st, row)
  else if key = "GPSLatitudeDecimal" then
    (st, row ++ [calculate_decimal st.latD st.latM st.latS])
  else if key = "GPSLongDegree" ∨ key = "GPSLongMinutes"
      ∨ key = "GPSLongSeconds" then
    let p := parse_gps_coordinate (dictGet gps_info "GPSLongitude")
    if key = "GPSLongDegree" then
      ({st with lonD := p.1}, row ++ [p.1])
    else if key = "GPSLongMinutes" then
      ({st with lonM := p.2.1}, row ++ [p.2.1])
    else if key = "GPSLongSeconds" then
      ({st with lonS := p.2.2}, row ++ [p.2.2])
    else (st, row)
  else if key = "GPSLongitudeDecimal" then
    (st, row ++ [calculate_decimal st.lonD st.lonM st.lonS])
  else
    (st, row ++ [dictGetD gps_info key (Value.str "")])

/-- One data row (lines 79-114): the filename followed by one cell per
header column, computed by folding `rowStep` over the columns. -/
def buildRow (keys : List String) (filename : String) (gps_info : TagMap) :
    List Value :=
  Value.str filename :: (keys.foldl (rowStep gps_info) (initRowState, [])).2

/-- All CSV rows of a run whose observed-key enumeration is `enum`: the
header `['Image Name'] + all_gps_keys` followed by one row per recorded
file. -/
def csvRowsOf (enum : List String) (files : List (String × TagMap)) :
    List (List Value) :=
  let keys := allGpsKeysOf enum
  (Value.str "Image Name" :: keys.map Value.str)
    :: files.map (fun p => buildRow keys p.1 p.2)

/-- Source function `write_gps_to_csv(directory, output_csv)` (lines 47-118) at the level of
rows of cells, as a function of the directory listing and the per-file
extraction results. -/
def write_gps_to_csv (listing : List String) (exif : String → TagMap) :
    List (List Value) :=
  csvRowsOf (observedKeys (gpsDataList listing exif)) (gpsDataList listing exif)

/-- A fixed rendering of a cell value to the text the CSV stores (model of
Python `str` on the cell; numeric cells are rendered canonically and
exactly — the byte-level claims depend only on this being a function of the
value). -/
def showValue : Value → String
  | Value.num q =>
    if q.den = 1 then toString q.num
    else toString q.num ++ "/" ++ toString q.den
  | Value.str s => s
  | Value.seq l =>
    "(" ++ String.intercalate ", "
      (l.attach.map (fun x => showValue x.1)) ++ ")"
decreasing_by
  have := List.sizeOf_lt_of_mem x.2
  simp only [Value.seq.sizeOf_spec]
  omega

/-- Quoting of one CSV field per the default `csv.writer` dialect
(QUOTE_MINIMAL, quote char `"`). -/
def csvField (s : String) : String :=
  if s.any (fun c => c = ',' ∨ c = '"' ∨ c = '\r' ∨ c = '\n') then
    "\"" ++ String.join (s.toList.map (fun c =>
      if c = '"' then "\"\"" else String.singleton c)) ++ "\""
  else s

/-- Serialisation of rows of fields per the default `csv.writer` dialect:
comma-separated fields, `\r\n` row terminator. -/
def csvEncode (rows : List (List String)) : String :=
  String.join (rows.map (fun r =>
    String.intercalate "," (r.map csvField) ++ "\r\n"))

/-- The bytes written by a run whose observed-key enumeration is `enum`. -/
def csvBytesOf (enum : List String) (listing : List String)
    (exif : String → TagMap) : String :=
  csvEncode ((csvRowsOf enum (gpsDataList listing exif)).map
    (fun r => r.map showValue))

/-- The bytes written by `write_gps_to_csv`. -/
def write_gps_to_csv_bytes (listing : List String) (exif : String → TagMap) :
    String :=
  csvEncode ((write_gps_to_csv listing exif).map (fun r => r.map showValue))

/-- Modelled from the spec: the row builder of §4.3 step 3, where each
coordinate is split once per row and all four sub-columns consume that one
split ("the split is conceptually memoized per coordinate per row").  Used
only as the comparison point of the refinement claim. -/
def buildRowMemoSpec (keys : List String) (filename : String)
    (gps_info : TagMap) : List Value :=
  let lat := parse_gps_coordinate (dictGet gps_info "GPSLatitude")
  let lon := parse_gps_coordinate (dictGet gps_info "GPSLongitude")
  Value.str filename :: keys.map (fun key =>
    if key = "GPSLatitudeDegree" then lat.1
    else if key = "GPSLatitudeMinutes" then lat.2.1
    else if key = "GPSLatitudeSeconds" then lat.2.2
    else if key = "GPSLatitudeDecimal" then
      calculate_decimal lat.1 lat.2.1 lat.2.2
    else if key = "GPSLongDegree" then lon.1
    else if key = "GPSLongMinutes" then lon.2.1
    else if key = "GPSLongSeconds" then lon.2.2
    else if key = "GPSLongitudeDecimal" then
      calculate_decimal lon.1 lon.2.1 lon.2.2
    else dictGetD gps_info key (Value.str ""))

/-- Variant of `write_gps_to_csv` with the memoizing row builder of the spec. -/
def write_gps_to_csv_memoSpec (listing : List String)
    (exif : String → TagMap) : List (List Value) :=
  let files := gpsDataList listing exif
  let keys := allGpsKeysOf (observedKeys files)
  (Value.str "Image Name" :: keys.map Value.str)
    :: files.map (fun p => buildRowMemoSpec keys p.1 p.2)

/-! ### Helper lemmas about the column derivation -/

lemma contains_iff_mem (l : List String) (a : String) :
    l.contains a = true ↔ a ∈ l := by
  simp [List.contains]

lemma pySorted_sorted (l : List String) : List.Sorted (· ≤ ·) (pySorted l) :=
  List.sorted_insertionSort _ _

lemma pySorted_perm (l : List String) : List.Perm (pySorted l) l :=
  List.perm_insertionSort _ _

lemma mem_pySorted {l : List String} {a : String} : a ∈ pySorted l ↔ a ∈ l :=
  (pySorted_perm l).mem_iff

lemma nodup_pySorted (l : List String) (h : l.Nodup) : (pySorted l).Nodup :=
  (pySorted_perm l).nodup_iff.2 h

lemma pySorted_eq_of_perm (l₁ l₂ : List String) (h : List.Perm l₁ l₂) :
    pySorted l₁ = pySorted l₂ :=
  List.eq_of_perm_of_sorted
    ((pySorted_perm l₁).trans (h.trans (pySorted_perm l₂).symm))
    (pySorted_sorted l₁) (pySorted_sorted l₂)

lemma erase_pySorted (enum : List String) (h : enum.Nodup) (a : String)
    (p : String → Bool) :
    (pySorted (enum.filter p)).erase a
      = pySorted (enum.filter (fun k => p k && (k != a))) := by
  apply List.eq_of_perm_of_sorted (r := (· ≤ ·))
  · apply (List.perm_ext_iff_of_nodup ((nodup_pySorted _ (h.filter p)).erase a)
      (nodup_pySorted _ (h.filter _))).2
    intro x
    rw [(nodup_pySorted _ (h.filter p)).mem_erase_iff]
    simp only [mem_pySorted, List.mem_filter, Bool.and_eq_true, bne_iff_ne,
      ne_eq]
    tauto
  · exact ((pySorted_sorted (enum.filter p)).sublist (List.erase_sublist _ _))
  · exact pySorted_sorted _

lemma filter_drop_vacuous (enum : List String) (a : String) (h : a ∉ enum)
    (p : String → Bool) :
    enum.filter (fun k => p k && (k != a)) = enum.filter p := by
  apply List.filter_congr
  intro x hx
  have hxa : x ≠ a := fun e => h (e ▸ hx)
  simp [hxa]

/-- Characterisation of lines 63-69: for a duplicate-free enumeration of the
observed keys, the header columns are the sorted non-coordinate non-excluded
keys, then the latitude group (iff `GPSLatitude` was observed), then the
longitude group (iff `GPSLongitude` was observed). -/

lemma allGpsKeysOf_eq (enum : List String) (h : enum.Nodup) :
    allGpsKeysOf enum =
      pySorted (enum.filter (fun k => !(excludedKeys.contains k)
          && (k != "GPSLatitude") && (k != "GPSLongitude")))
      ++ (if "GPSLatitude" ∈ enum then latCols else [])
      ++ (if "GPSLongitude" ∈ enum then longCols else []) := by
  simp only [allGpsKeysOf]
  have hexlat : excludedKeys.contains "GPSLatitude" = false := by decide
  have hexlon : excludedKeys.contains "GPSLongitude" = false := by decide
  by_cases hlat : "GPSLatitude" ∈ enum <;>
    by_cases hlon : "GPSLongitude" ∈ enum
  · have h1 : (pySorted (enum.filter (fun k =>
        !(excludedKeys.contains k)))).contains "GPSLatitude" = true := by
      rw [contains_iff_mem, mem_pySorted, List.mem_filter]
      exact ⟨hlat, by rw [hexlat]; rfl⟩
    have hlonmem : "GPSLongitude" ∈ (pySorted (enum.filter (fun k =>
        !(excludedKeys.contains k)))).erase "GPSLatitude" := by
      rw [List.mem_erase_of_ne (by decide), mem_pySorted, List.mem_filter]
      exact ⟨hlon, by rw [hexlon]; rfl⟩
    have h2 : ((pySorted (enum.filter (fun k =>
        !(excludedKeys.contains k)))).erase
        "GPSLatitude" ++ latCols).contains "GPSLongitude" = true := by
      rw [contains_iff_mem, List.mem_append]
      exact Or.inl hlonmem
    rw [h1, if_pos rfl, h2, if_pos rfl, List.erase_append_left latCols hlonmem,
      if_pos hlat, if_pos hlon, erase_pySorted enum h,
      erase_pySorted enum h]
  · have h1 : (pySorted (enum.filter (fun k =>
        !(excludedKeys.contains k)))).contains "GPSLatitude" = true := by
      rw [contains_iff_mem, mem_pySorted, List.mem_filter]
      exact ⟨hlat, by rw [hexlat]; rfl⟩
    have h2 : ((pySorted (enum.filter (fun k =>
        !(excludedKeys.contains k)))).erase
        "GPSLatitude" ++ latCols).contains "GPSLongitude" = false := by
      rw [Bool.eq_false_iff, Ne, contains_iff_mem, List.mem_append]
      rintro (hc | hc)
      · exact hlon (List.mem_filter.1 (mem_pySorted.1
          (List.mem_of_mem_erase hc))).1
      · revert hc; decide
    rw [h1, if_pos rfl, h2]
    simp only [Bool.false_eq_true, if_false, if_pos hlat, if_neg hlon,
      List.append_nil]
    rw [erase_pySorted enum h]
    congr 1
    apply congrArg
    apply (List.filter_congr _).symm
    intro x hx
    have hxl : x ≠ "GPSLongitude" := fun e => hlon (e ▸ hx)
    simp [hxl]
  · have h1 : (pySorted (enum.filter (fun k =>
        !(excludedKeys.contains k)))).contains "GPSLatitude" = false := by
      rw [Bool.eq_false_iff, Ne, contains_iff_mem, mem_pySorted,
        List.mem_filter]
      rintro ⟨hc, -⟩
      exact hlat hc
    have h2 : (pySorted (enum.filter (fun k =>
        !(excludedKeys.contains k)))).contains "GPSLongitude" = true := by
      rw [contains_iff_mem, mem_pySorted, List.mem_filter]
      exact ⟨hlon, by rw [hexlon]; rfl⟩
    rw [h1]
    simp only [Bool.false_eq_true, if_false]
    rw [h2, if_pos rfl, if_neg hlat, if_pos hlon, erase_pySorted enum h]
    simp only [List.append_nil]
    congr 2
    apply (List.filter_congr _)
    intro x hx
    have hxl : x ≠ "GPSLatitude" := fun e => hlat (e ▸ hx)
    have ha : (x != "GPSLatitude") = true := by simp [hxl]
    simp [ha]
  · have h1 : (pySorted (enum.filter (fun k =>
        !(excludedKeys.contains k)))).contains "GPSLatitude" = false := by
      rw [Bool.eq_false_iff, Ne, contains_iff_mem, mem_pySorted,
        List.mem_filter]
      rintro ⟨hc, -⟩
      exact hlat hc
    have h2 : (pySorted (enum.filter (fun k =>
        !(excludedKeys.contains k)))).contains "GPSLongitude" = false := by
      rw [Bool.eq_false_iff, Ne, contains_iff_mem, mem_pySorted,
        List.mem_filter]
      rintro ⟨hc, -⟩
      exact hlon hc
    rw [h1]
    simp only [Bool.false_eq_true, if_false]
    rw [h2]
    simp only [Bool.false_eq_true, if_false, if_neg hlat, if_neg hlon,
      List.append_nil]
    congr 1
    apply (List.filter_congr _)
    intro x hx
    have hxa : x ≠ "GPSLatitude" := fun e => hlat (e ▸ hx)
    have hxb : x ≠ "GPSLongitude" := fun e => hlon (e ▸ hx)
    have ha : (x != "GPSLatitude") = true := by simp [hxa]
    have hb : (x != "GPSLongitude") = true := by simp [hxb]
    simp [ha, hb]



lemma mem_observedKeys {files : List (String × TagMap)} {k : String} :
    k ∈ observedKeys files ↔ ∃ p ∈ files, k ∈ keysOf p.2 := by
  simp only [observedKeys, List.mem_dedup, List.mem_flatten, List.mem_map]
  constructor
  · rintro ⟨l, ⟨p, hp, rfl⟩, hk⟩
    exact ⟨p, hp, hk⟩
  · rintro ⟨p, hp, hk⟩
    exact ⟨keysOf p.2, ⟨p, hp, rfl⟩, hk⟩

lemma nodup_observedKeys (files : List (String × TagMap)) :
    (observedKeys files).Nodup :=
  List.nodup_dedup _

lemma mem_of_mem_ite_nil {x : String} {P : Prop} [Decidable P]
    {L : List String} (hin : x ∈ (if P then L else [])) : x ∈ L := by
  split at hin
  · exact hin
  · cases hin

lemma coord_not_mem_allGpsKeysOf (enum : List String) (h : enum.Nodup)
    (x : String) (hx : x = "GPSLatitude" ∨ x = "GPSLongitude") :
    x ∉ allGpsKeysOf enum := by
  rw [allGpsKeysOf_eq enum h]
  intro hmem
  rcases List.mem_append.1 hmem with hmem2 | hC
  · rcases List.mem_append.1 hmem2 with hA | hB
    · rw [mem_pySorted, List.mem_filter] at hA
      rcases hA with ⟨-, hbool⟩
      rcases hx with rfl | rfl <;> simp at hbool
    · have hc := mem_of_mem_ite_nil hB
      rcases hx with rfl | rfl <;> revert hc <;> decide
  · have hc := mem_of_mem_ite_nil hC
    rcases hx with rfl | rfl <;> revert hc <;> decide

/-- Claim C1: in every batch run, the emitted header row is exactly
`Image Name` followed by the observed non-coordinate GPS tag names (with
`GPSAltitudeRef` and `GPSVersionID` excluded) sorted lexicographically,
then the four latitude-derived columns (present iff some image has a
`GPSLatitude` tag), then the four longitude-derived columns (present iff
some image has a `GPSLongitude` tag), each group adjacent and in its fixed
order; and neither `GPSLatitude` nor `GPSLongitude` appears as a header
name. -/
theorem write_gps_to_csv_header (listing : List String)
    (exif : String → TagMap) :
    (write_gps_to_csv listing exif).head? = some (Value.str "Image Name" ::
      (pySorted ((observedKeys (gpsDataList listing exif)).filter
          (fun k => !(excludedKeys.contains k) && (k != "GPSLatitude")
            && (k != "GPSLongitude")))
        ++ (if ∃ p ∈ gpsDataList listing exif, "GPSLatitude" ∈ keysOf p.2
            then latCols else [])
        ++ (if ∃ p ∈ gpsDataList listing exif, "GPSLongitude" ∈ keysOf p.2
            then longCols else [])).map Value.str)
  ∧ Value.str "GPSLatitude" ∉ ((write_gps_to_csv listing exif).head?.getD [])
  ∧ Value.str "GPSLongitude" ∉ ((write_gps_to_csv listing exif).head?.getD []) := by
  have hhead : (write_gps_to_csv listing exif).head?
      = some (Value.str "Image Name"
        :: (allGpsKeysOf (observedKeys (gpsDataList listing exif))).map
          Value.str) := rfl
  have hiffLat : ("GPSLatitude" ∈ observedKeys (gpsDataList listing exif))
      ↔ ∃ p ∈ gpsDataList listing exif, "GPSLatitude" ∈ keysOf p.2 :=
    mem_observedKeys
  have hiffLon : ("GPSLongitude" ∈ observedKeys (gpsDataList listing exif))
      ↔ ∃ p ∈ gpsDataList listing exif, "GPSLongitude" ∈ keysOf p.2 :=
    mem_observedKeys
  refine ⟨?_, ?_, ?_⟩
  · rw [hhead, allGpsKeysOf_eq _ (nodup_observedKeys _)]
    simp only [hiffLat, hiffLon]
  · rw [hhead]
    simp only [Option.getD_some]
    intro hmem
    rcases List.mem_cons.1 hmem with heq | hmem2
    · simp at heq
    · rcases List.mem_map.1 hmem2 with ⟨a, ha, hfa⟩
      injection hfa with hfa
      subst hfa
      exact coord_not_mem_allGpsKeysOf _ (nodup_observedKeys _) _
        (Or.inl rfl) ha
  · rw [hhead]
    simp only [Option.getD_some]
    intro hmem
    rcases List.mem_cons.1 hmem with heq | hmem2
    · simp at heq
    · rcases List.mem_map.1 hmem2 with ⟨a, ha, hfa⟩
      injection hfa with hfa
      subst hfa
      exact coord_not_mem_allGpsKeysOf _ (nodup_observedKeys _) _
        (Or.inr rfl) ha



lemma gpsDataList_map_fst (listing : List String) (exif : String → TagMap) :
    (gpsDataList listing exif).map Prod.fst
      = listing.filter (fun f => isJpg f && !(exif f).isEmpty) := by
  induction listing with
  | nil => rfl
  | cons f rest ih =>
    by_cases hj : isJpg f
    · by_cases he : (exif f).isEmpty
      · simp [gpsDataList, List.filter_cons, hj, he] at ih ⊢
        exact ih
      · simp only [Bool.not_eq_true] at he
        simp [gpsDataList, List.filter_cons, hj, he] at ih ⊢
        exact ih
    · simp only [Bool.not_eq_true] at hj
      simp [gpsDataList, List.filter_cons, hj] at ih ⊢
      exact ih

/-- Claim C4: the data rows written by `write_gps_to_csv` are exactly one
row per directory entry whose name ends in the case-insensitive extension
`.jpg` and whose extracted tag map is non-empty, in directory-listing
order (each row starts with its filename), so in particular the row count
equals the count of such entries. -/
theorem write_gps_to_csv_row_count (listing : List String)
    (exif : String → TagMap) :
    ((write_gps_to_csv listing exif).drop 1).map List.head?
        = (listing.filter (fun f => isJpg f && !(exif f).isEmpty)).map
            (fun f => some (Value.str f))
  ∧ ((write_gps_to_csv listing exif).drop 1).length
        = (listing.filter (fun f => isJpg f && !(exif f).isEmpty)).length := by
  have hdrop : (write_gps_to_csv listing exif).drop 1
      = (gpsDataList listing exif).map (fun p =>
          buildRow (allGpsKeysOf (observedKeys (gpsDataList listing exif)))
            p.1 p.2) := rfl
  constructor
  · rw [hdrop, List.map_map, ← gpsDataList_map_fst listing exif, List.map_map]
    apply List.map_congr_left
    intro p hp
    rfl
  · rw [hdrop, List.length_map, ← gpsDataList_map_fst listing exif,
      List.length_map]



/-- Claim C6: for all inputs — even when some image's tag map contains the
tags — `GPSAltitudeRef` and `GPSVersionID` never appear as columns of the
header row produced by `write_gps_to_csv`. -/
theorem excluded_keys_never_in_header (listing : List String)
    (exif : String → TagMap) :
    Value.str "GPSAltitudeRef" ∉ ((write_gps_to_csv listing exif).head?.getD [])
  ∧ Value.str "GPSVersionID" ∉ ((write_gps_to_csv listing exif).head?.getD []) := by
  have hhead : (write_gps_to_csv listing exif).head?
      = some (Value.str "Image Name"
        :: (allGpsKeysOf (observedKeys (gpsDataList listing exif))).map
          Value.str) := rfl
  have hgen : ∀ x : String, x = "GPSAltitudeRef" ∨ x = "GPSVersionID" →
      Value.str x ∉ ((write_gps_to_csv listing exif).head?.getD []) := by
    intro x hx
    rw [hhead]
    simp only [Option.getD_some]
    intro hmem
    rcases List.mem_cons.1 hmem with heq | hmem2
    · rcases hx with rfl | rfl <;> simp at heq
    · rcases List.mem_map.1 hmem2 with ⟨a, ha, hfa⟩
      injection hfa with hfa
      subst hfa
      rw [allGpsKeysOf_eq _ (nodup_observedKeys _)] at ha
      rcases List.mem_append.1 ha with ha2 | hC
      · rcases List.mem_append.1 ha2 with hA | hB
        · rw [mem_pySorted, List.mem_filter] at hA
          rcases hA with ⟨-, hbool⟩
          rcases hx with rfl | rfl <;> simp at hbool <;>
            exact hbool (by decide)
        · have hc := mem_of_mem_ite_nil hB
          rcases hx with rfl | rfl <;> revert hc <;> decide
      · have hc := mem_of_mem_ite_nil hC
        rcases hx with rfl | rfl <;> revert hc <;> decide
  exact ⟨hgen _ (Or.inl rfl), hgen _ (Or.inr rfl)⟩



/-- Claim C2: `parse_gps_coordinate` returns the three elements of its
argument positionally when the argument is present and is exactly a
3-element list/tuple, and in every other case (missing, wrong length,
wrong type) returns `('', '', '')`; in particular a 2-element sequence
stored under `GPSLatitude` yields `('', '', '')` and the corresponding
decimal cell of the output row is the empty string, not zero and not an
error. -/
theorem parse_gps_coordinate_contract :
    (∀ (v : Option Value) (a b c : Value), v = some (Value.seq [a, b, c]) →
        parse_gps_coordinate v = (a, b, c))
  ∧ (∀ v : Option Value, (¬ ∃ a b c, v = some (Value.seq [a, b, c])) →
        parse_gps_coordinate v = (Value.str "", Value.str "", Value.str ""))
  ∧ (∀ (name : String) (m : TagMap) (x y : Value),
        dictGet m "GPSLatitude" = some (Value.seq [x, y]) →
        buildRow latCols name m = [Value.str name, Value.str "", Value.str "",
          Value.str "", Value.str ""]) := by
  refine ⟨?_, ?_, ?_⟩
  · rintro v a b c rfl
    rfl
  · intro v h
    rcases v with _ | v
    · rfl
    · rcases v with q | s | l
      · rfl
      · rfl
      · rcases l with _ | ⟨a, _ | ⟨b, _ | ⟨c, _ | ⟨d, rest⟩⟩⟩⟩
        · rfl
        · rfl
        · rfl
        · exact absurd ⟨a, b, c, rfl⟩ h
        · rfl
  · intro name m x y hlat
    have hp : parse_gps_coordinate (some (Value.seq [x, y]))
        = (Value.str "", Value.str "", Value.str "") := rfl
    have hc : calculate_decimal (Value.str "") (Value.str "") (Value.str "")
        = Value.str "" := rfl
    simp [buildRow, latCols, rowStep, hlat, hp, hc, initRowState]

/-- Witness for C2 at the concrete 2-element value `[1, 2]`. -/
theorem parse_gps_coordinate_contract_witness :
    parse_gps_coordinate (some (Value.seq [Value.num 1, Value.num 2]))
      = (Value.str "", Value.str "", Value.str "")
  ∧ buildRow latCols "a.jpg"
        [("GPSLatitude", Value.seq [Value.num 1, Value.num 2])]
      = [Value.str "a.jpg", Value.str "", Value.str "", Value.str "",
         Value.str ""] :=
  ⟨parse_gps_coordinate_contract.2.1 _ (by rintro ⟨a, b, c, h⟩; simp at h),
   parse_gps_coordinate_contract.2.2 "a.jpg" _ (Value.num 1) (Value.num 2) rfl⟩

/-- Claim C3: on inputs that each coerce to a number, `calculate_decimal`
returns `deg + min/60 + sec/3600` — in particular exactly `10.5 = 21/2` on
`(10, 30, 0)` and exactly `2` on `(1, 0, 3600)` — and when any input fails
to coerce (including the empty sentinel), it returns `''` instead of
raising and logs a diagnostic. -/
theorem calculate_decimal_contract :
    (∀ degree minutes seconds qd qm qs, pyFloat degree = some qd →
        pyFloat minutes = some qm → pyFloat seconds = some qs →
        calculate_decimal degree minutes seconds
          = Value.num (qd + qm / 60 + qs / 3600))
  ∧ (∀ degree minutes seconds, (pyFloat degree = none ∨ pyFloat minutes = none
        ∨ pyFloat seconds = none) →
        calculate_decimal degree minutes seconds = Value.str ""
          ∧ calculate_decimal_log degree minutes seconds
            = ["Error calculating decimal value"])
  ∧ calculate_decimal (Value.num 10) (Value.num 30) (Value.num 0)
      = Value.num (21 / 2)
  ∧ calculate_decimal (Value.num 1) (Value.num 0) (Value.num 3600)
      = Value.num 2 := by
  have h1 : ∀ degree minutes seconds qd qm qs, pyFloat degree = some qd →
      pyFloat minutes = some qm → pyFloat seconds = some qs →
      calculate_decimal degree minutes seconds
        = Value.num (qd + qm / 60 + qs / 3600) := by
    intro degree minutes seconds qd qm qs hd hm hs
    simp [calculate_decimal, hd, hm, hs]
  refine ⟨h1, ?_, ?_, ?_⟩
  · intro degree minutes seconds h
    cases hd : pyFloat degree <;> cases hm : pyFloat minutes <;>
      cases hs : pyFloat seconds <;>
      simp_all [calculate_decimal, calculate_decimal_log]
  · rw [h1 (Value.num 10) (Value.num 30) (Value.num 0) 10 30 0 rfl rfl rfl]
    norm_num
  · rw [h1 (Value.num 1) (Value.num 0) (Value.num 3600) 1 0 3600 rfl rfl rfl]
    norm_num

/-- Witness for C3 at `(10, 30, 0)` and at a non-coercible first input. -/
theorem calculate_decimal_contract_witness :
    calculate_decimal (Value.num 10) (Value.num 30) (Value.num 0)
      = Value.num (10 + 30 / 60 + 0 / 3600)
  ∧ calculate_decimal (Value.str "") (Value.num 1) (Value.num 2)
      = Value.str "" :=
  ⟨calculate_decimal_contract.1 (Value.num 10) (Value.num 30) (Value.num 0)
      10 30 0 rfl rfl rfl,
   (calculate_decimal_contract.2.1 (Value.str "") (Value.num 1) (Value.num 2)
      (Or.inl rfl)).1⟩

/-- Claim C9: `parse_gps_coordinate` is total — it returns a 3-tuple for
every input without raising — and only a `list`/`tuple` of length exactly 3
is accepted: every string (even of length 3, such as a 3-character string),
every number, the absent value, and every sequence of a different length
yield the sentinel `('', '', '')`. -/
theorem parse_gps_coordinate_total :
    (∀ s : String, parse_gps_coordinate (some (Value.str s))
        = (Value.str "", Value.str "", Value.str ""))
  ∧ (∀ q : ℚ, parse_gps_coordinate (some (Value.num q))
        = (Value.str "", Value.str "", Value.str ""))
  ∧ parse_gps_coordinate none = (Value.str "", Value.str "", Value.str "")
  ∧ (∀ l : List Value, l.length ≠ 3 →
        parse_gps_coordinate (some (Value.seq l))
          = (Value.str "", Value.str "", Value.str ""))
  ∧ (∀ a b c : Value, parse_gps_coordinate (some (Value.seq [a, b, c]))
        = (a, b, c)) := by
  refine ⟨fun s => rfl, fun q => rfl, rfl, ?_, fun a b c => rfl⟩
  intro l hl
  rcases l with _ | ⟨a, _ | ⟨b, _ | ⟨c, _ | ⟨d, rest⟩⟩⟩⟩
  · rfl
  · rfl
  · rfl
  · exact absurd rfl hl
  · rfl

/-- Witness for C9 at a 2-element sequence and at a 3-character string. -/
theorem parse_gps_coordinate_total_witness :
    parse_gps_coordinate (some (Value.seq [Value.num 1, Value.num 2]))
        = (Value.str "", Value.str "", Value.str "")
  ∧ parse_gps_coordinate (some (Value.str "abc"))
        = (Value.str "", Value.str "", Value.str "") :=
  ⟨parse_gps_coordinate_total.2.2.2.1 [Value.num 1, Value.num 2] (by decide),
   parse_gps_coordinate_total.1 "abc"⟩

/-- Claim C7: any failure while opening or decoding the image is caught by
`get_gps_info`, which logs one line containing the file path and the
underlying message and returns an empty tag map instead of propagating the
failure (the function is total, so a bad file cannot abort the batch). -/
theorem get_gps_info_decode_failure (tags gpstags : Nat → Option String)
    (image_path e : String) :
    get_gps_info tags gpstags image_path (Except.error e)
      = ([], ["Error reading GPSInfo data from " ++ image_path ++ ": " ++ e]) :=
  rfl

/-- Claim C10: when the decoder reports a GPS sub-tag id missing from the
`GPSTAGS` table, `get_gps_info` stores the raw numeric id itself as the key,
so the tag map — and hence the observed-key set that feeds the header
computation — can contain non-string (integer) keys. -/
theorem get_gps_info_raw_id_key (tags gpstags : Nat → Option String)
    (image_path : String) (gid n : Nat) (v : Value)
    (htag : tags gid = some "GPSInfo") (hmiss : gpstags n = none) :
    (get_gps_info tags gpstags image_path
        (Except.ok [(gid, ExifVal.dict [(n, v)])])).1 = [(Key.id n, v)]
  ∧ Key.id n ∈ observedKeysK [(image_path,
      (get_gps_info tags gpstags image_path
        (Except.ok [(gid, ExifVal.dict [(n, v)])])).1)]
  ∧ ∀ s : String, Key.id n ≠ Key.str s := by
  have hmap : (get_gps_info tags gpstags image_path
      (Except.ok [(gid, ExifVal.dict [(n, v)])])).1 = [(Key.id n, v)] := by
    simp [get_gps_info, findGpsInfo, tagName, htag, hmiss]
  refine ⟨hmap, ?_, fun s h => by cases h⟩
  rw [hmap]
  simp [observedKeysK]

/-- Witness for C10 with the real `GPSInfo` tag id 34853 and an unknown
sub-tag id 7. -/
theorem get_gps_info_raw_id_key_witness :
    (get_gps_info (fun g => if g = 34853 then some "GPSInfo" else none)
        (fun _ => none) "img.jpg"
        (Except.ok [(34853, ExifVal.dict [(7, Value.num 1)])])).1
      = [(Key.id 7, Value.num 1)] :=
  (get_gps_info_raw_id_key _ _ "img.jpg" 34853 7 (Value.num 1) rfl rfl).1



lemma allGpsKeysOf_eq_of_perm (e₁ e₂ : List String) (h : List.Perm e₁ e₂) :
    allGpsKeysOf e₁ = allGpsKeysOf e₂ := by
  simp only [allGpsKeysOf]
  rw [pySorted_eq_of_perm _ _ (h.filter _)]

/-- The tag-extraction results used by the concrete witnesses: `a.jpg` has a
latitude and a longitude triple, `b.jpg` has no GPS data. -/
def exifWitness : String → TagMap := fun f =>
  if f = "a.jpg" then
    [("GPSLatitude", Value.seq [Value.num 10, Value.num 30, Value.num 0]),
     ("GPSLongitude", Value.seq [Value.num 20, Value.num 15, Value.num 0])]
  else []

/-- Claim C8: the export is a deterministic function of the directory
listing and the per-file tag maps — two runs over the same unchanged inputs
produce byte-identical CSV content.  The only run-to-run variation in the
program is the iteration order of the Python set of observed keys, so the
theorem quantifies over any two enumerations of that set: both yield the
same bytes, equal to the canonical run. -/
theorem write_gps_to_csv_deterministic (listing : List String)
    (exif : String → TagMap) (enum₁ enum₂ : List String)
    (h₁ : List.Perm enum₁ (observedKeys (gpsDataList listing exif)))
    (h₂ : List.Perm enum₂ (observedKeys (gpsDataList listing exif))) :
    csvBytesOf enum₁ listing exif = csvBytesOf enum₂ listing exif
  ∧ csvBytesOf enum₁ listing exif = write_gps_to_csv_bytes listing exif := by
  have key : ∀ e, List.Perm e (observedKeys (gpsDataList listing exif)) →
      csvBytesOf e listing exif = write_gps_to_csv_bytes listing exif := by
    intro e he
    have hrows : csvRowsOf e (gpsDataList listing exif)
        = csvRowsOf (observedKeys (gpsDataList listing exif))
            (gpsDataList listing exif) := by
      simp only [csvRowsOf]
      rw [allGpsKeysOf_eq_of_perm _ _ he]
    simp only [csvBytesOf, write_gps_to_csv_bytes, write_gps_to_csv]
    rw [hrows]
  exact ⟨(key _ h₁).trans (key _ h₂).symm, key _ h₁⟩

/-- Witness for C8: two opposite set-iteration orders over a concrete
directory produce the same bytes. -/
theorem write_gps_to_csv_deterministic_witness :
    csvBytesOf ["GPSLongitude", "GPSLatitude"] ["a.jpg", "b.jpg"] exifWitness
      = csvBytesOf ["GPSLatitude", "GPSLongitude"] ["a.jpg", "b.jpg"]
          exifWitness := by
  have hobs : observedKeys (gpsDataList ["a.jpg", "b.jpg"] exifWitness)
      = ["GPSLatitude", "GPSLongitude"] := by decide
  exact (write_gps_to_csv_deterministic ["a.jpg", "b.jpg"] exifWitness
    ["GPSLongitude", "GPSLatitude"] ["GPSLatitude", "GPSLongitude"]
    (by rw [hobs]; decide) (by rw [hobs])).1



lemma rowStep_other (m : TagMap) (st : RowState) (row : List Value)
    (key : String) (h1 : key ∉ latCols) (h2 : key ∉ longCols) :
    rowStep m (st, row) key = (st, row ++ [dictGetD m key (Value.str "")]) := by
  simp only [latCols, longCols, List.mem_cons, List.not_mem_nil, or_false,
    not_or] at h1 h2
  obtain ⟨ha, hb, hc, hd⟩ := h1
  obtain ⟨he, hf, hg, hh⟩ := h2
  simp [rowStep, ha, hb, hc, hd, he, hf, hg, hh]

lemma foldl_rowStep_other (m : TagMap) (S : List String)
    (h : ∀ k ∈ S, k ∉ latCols ∧ k ∉ longCols) (st : RowState)
    (row : List Value) :
    S.foldl (rowStep m) (st, row)
      = (st, row ++ S.map (fun k => dictGetD m k (Value.str ""))) := by
  induction S generalizing row with
  | nil => simp
  | cons k rest ih =>
    rw [List.foldl_cons, rowStep_other m st row k (h k (by simp)).1
      (h k (by simp)).2, ih (fun x hx => h x (by simp [hx]))]
    simp

lemma foldl_rowStep_latCols (m : TagMap) (st : RowState) (row : List Value) :
    latCols.foldl (rowStep m) (st, row)
      = ({st with
            latD := (parse_gps_coordinate (dictGet m "GPSLatitude")).1,
            latM := (parse_gps_coordinate (dictGet m "GPSLatitude")).2.1,
            latS := (parse_gps_coordinate (dictGet m "GPSLatitude")).2.2},
         row ++ [(parse_gps_coordinate (dictGet m "GPSLatitude")).1,
           (parse_gps_coordinate (dictGet m "GPSLatitude")).2.1,
           (parse_gps_coordinate (dictGet m "GPSLatitude")).2.2,
           calculate_decimal
             (parse_gps_coordinate (dictGet m "GPSLatitude")).1
             (parse_gps_coordinate (dictGet m "GPSLatitude")).2.1
             (parse_gps_coordinate (dictGet m "GPSLatitude")).2.2]) := by
  simp [latCols, rowStep]

lemma foldl_rowStep_longCols (m : TagMap) (st : RowState) (row : List Value) :
    longCols.foldl (rowStep m) (st, row)
      = ({st with
            lonD := (parse_gps_coordinate (dictGet m "GPSLongitude")).1,
            lonM := (parse_gps_coordinate (dictGet m "GPSLongitude")).2.1,
            lonS := (parse_gps_coordinate (dictGet m "GPSLongitude")).2.2},
         row ++ [(parse_gps_coordinate (dictGet m "GPSLongitude")).1,
           (parse_gps_coordinate (dictGet m "GPSLongitude")).2.1,
           (parse_gps_coordinate (dictGet m "GPSLongitude")).2.2,
           calculate_decimal
             (parse_gps_coordinate (dictGet m "GPSLongitude")).1
             (parse_gps_coordinate (dictGet m "GPSLongitude")).2.1
             (parse_gps_coordinate (dictGet m "GPSLongitude")).2.2]) := by
  simp [longCols, rowStep]

lemma memoSpec_cell_other (m : TagMap)
    (lat lon : Value × Value × Value) (key : String)
    (h1 : key ∉ latCols) (h2 : key ∉ longCols) :
    (if key = "GPSLatitudeDegree" then lat.1
    else if key = "GPSLatitudeMinutes" then lat.2.1
    else if key = "GPSLatitudeSeconds" then lat.2.2
    else if key = "GPSLatitudeDecimal" then
      calculate_decimal lat.1 lat.2.1 lat.2.2
    else if key = "GPSLongDegree" then lon.1
    else if key = "GPSLongMinutes" then lon.2.1
    else if key = "GPSLongSeconds" then lon.2.2
    else if key = "GPSLongitudeDecimal" then
      calculate_decimal lon.1 lon.2.1 lon.2.2
    else dictGetD m key (Value.str "")) = dictGetD m key (Value.str "") := by
  simp only [latCols, longCols, List.mem_cons, List.not_mem_nil, or_false,
    not_or] at h1 h2
  obtain ⟨ha, hb, hc, hd⟩ := h1
  obtain ⟨he, hf, hg, hh⟩ := h2
  simp [ha, hb, hc, hd, he, hf, hg, hh]

lemma buildRow_memo_shape (S : List String)
    (hS : ∀ k ∈ S, k ∉ latCols ∧ k ∉ longCols)
    (G1 G2 : List String) (hG1 : G1 = latCols ∨ G1 = [])
    (hG2 : G2 = longCols ∨ G2 = []) (filename : String) (m : TagMap) :
    buildRow (S ++ G1 ++ G2) filename m
      = buildRowMemoSpec (S ++ G1 ++ G2) filename m := by
  simp only [buildRow, buildRowMemoSpec, List.foldl_append, List.map_append]
  rw [foldl_rowStep_other m S hS]
  congr 1
  rw [List.map_congr_left (fun k hk =>
    memoSpec_cell_other m (parse_gps_coordinate (dictGet m "GPSLatitude"))
      (parse_gps_coordinate (dictGet m "GPSLongitude")) k (hS k hk).1
      (hS k hk).2)]
  rcases hG1 with rfl | rfl <;> rcases hG2 with rfl | rfl
  · rw [foldl_rowStep_latCols, foldl_rowStep_longCols]
    simp [latCols, longCols]
  · rw [foldl_rowStep_latCols]
    simp [latCols]
  · rw [foldl_rowStep_longCols]
    simp [longCols]
  · simp



/-- Claim C5: in every emitted row the four latitude sub-columns all derive
from one split of that row's `GPSLatitude` value and the four longitude
sub-columns from one split of its `GPSLongitude` value, the decimal cell
being `calculate_decimal` of the three components of that same split: the
emitted output equals the output of the spec's version that memoizes each
split once per coordinate per row.  The hypothesis states that no observed
tag name collides with a derived column name, which holds for every map
`get_gps_info` can produce, since `GPSTAGS` contains none of the derived
names. -/
theorem write_gps_to_csv_memoized (listing : List String)
    (exif : String → TagMap)
    (hclean : ∀ p ∈ gpsDataList listing exif, ∀ k ∈ keysOf p.2,
        k ∉ latCols ∧ k ∉ longCols) :
    write_gps_to_csv listing exif = write_gps_to_csv_memoSpec listing exif := by
  have hobs : ∀ k ∈ observedKeys (gpsDataList listing exif),
      k ∉ latCols ∧ k ∉ longCols := by
    intro k hk
    rcases mem_observedKeys.1 hk with ⟨p, hp, hkp⟩
    exact hclean p hp k hkp
  have hdecomp := allGpsKeysOf_eq (observedKeys (gpsDataList listing exif))
    (nodup_observedKeys _)
  have hg1 : (if "GPSLatitude" ∈ observedKeys (gpsDataList listing exif)
      then latCols else []) = latCols
    ∨ (if "GPSLatitude" ∈ observedKeys (gpsDataList listing exif)
      then latCols else []) = ([] : List String) := by
    split
    · exact Or.inl rfl
    · exact Or.inr rfl
  have hg2 : (if "GPSLongitude" ∈ observedKeys (gpsDataList listing exif)
      then longCols else []) = longCols
    ∨ (if "GPSLongitude" ∈ observedKeys (gpsDataList listing exif)
      then longCols else []) = ([] : List String) := by
    split
    · exact Or.inl rfl
    · exact Or.inr rfl
  simp only [write_gps_to_csv, write_gps_to_csv_memoSpec, csvRowsOf]
  congr 1
  apply List.map_congr_left
  intro p hp
  rw [hdecomp]
  apply buildRow_memo_shape _ _ _ _ hg1 hg2
  intro k hk
  rw [mem_pySorted, List.mem_filter] at hk
  exact hobs k hk.1

/-- Witness for C5 on a concrete one-image directory. -/
theorem write_gps_to_csv_memoized_witness :
    write_gps_to_csv ["a.jpg"] exifWitness
      = write_gps_to_csv_memoSpec ["a.jpg"] exifWitness :=
  write_gps_to_csv_memoized ["a.jpg"] exifWitness (by decide)

end GpsMetadata
